import Mathlib

/-!
Verification of the ionos-mcp server (src/index.ts): a shallow embedding of
its tool catalog, dispatcher and HTTP handlers, together with theorems about
the catalog/dispatch contract and the error-normalization behaviour.

Modelling conventions:
* JavaScript/JSON values are the inductive `Json`; `undefined` is modelled as
  `Option Json` = `none` where it can arise (absent object field, absent
  axios `response`).  JS numbers are modelled as `Int` (every numeric value
  appearing in the claims is an integer; float formatting is irrelevant to
  every claim).
* The outbound HTTP layer is an oracle `Http : HttpRequest → Except HttpFailure Json`
  supplied to the dispatcher; an invocation returns both its result and the
  list of requests it issued, which makes "exactly one outbound call" a
  provable statement.
* A thrown JS exception is either an `McpError`-like value (`Thrown.mcp`) or
  the propagated failure of the HTTP call (`Thrown.httpFailure`); the
  dispatcher's `catch` block converts an axios failure into an envelope and
  rethrows everything else, exactly as the `catch (error)` block in
  `setupToolHandlers` does.
-/

/-- JSON / JavaScript structural values (`response.data`, tool arguments,
request bodies, input schemas). -/
inductive Json where
  | null : Json
  | bool : Bool → Json
  | num : Int → Json
  | str : String → Json
  | arr : List Json → Json
  | obj : List (String × Json) → Json

namespace Json

/-- JS truthiness of a defined value (`Boolean(v)`): `null`, `false`, `0` and
the empty string are falsy; every array and object is truthy. -/
def truthy : Json → Bool
  | .null => false
  | .bool b => b
  | .num n => !(n == 0)
  | .str s => !(s == "")
  | .arr _ => true
  | .obj _ => true

/-- JS truthiness of a possibly-`undefined` value: `undefined` is falsy. -/
def truthyOpt : Option Json → Bool
  | none => false
  | some j => truthy j

/-- Property access `v.k` (and `v?.k`): the field of an object, `undefined`
(`none`) when the field is absent or the value is not an object. -/
def field (j : Json) (k : String) : Option Json :=
  match j with
  | .obj fields => fields.lookup k
  | _ => none

mutual

/-- JS `String(v)` for a defined value, as used by template-literal
interpolation. -/
def jsToString : Json → String
  | .null => "null"
  | .bool true => "true"
  | .bool false => "false"
  | .num n => toString n
  | .str s => s
  | .arr xs => String.intercalate "," (jsJoinItems xs)
  | .obj _ => "[object Object]"

/-- `Array.prototype.join(",")` item conversion: `null` becomes the empty
string, every other element is converted with `String(·)`. -/
def jsJoinItems : List Json → List String
  | [] => []
  | .null :: xs => "" :: jsJoinItems xs
  | .bool b :: xs => jsToString (.bool b) :: jsJoinItems xs
  | .num n :: xs => jsToString (.num n) :: jsJoinItems xs
  | .str s :: xs => jsToString (.str s) :: jsJoinItems xs
  | .arr a :: xs => jsToString (.arr a) :: jsJoinItems xs
  | .obj o :: xs => jsToString (.obj o) :: jsJoinItems xs

end

/-- Template-literal interpolation of a possibly-`undefined` value:
`String(undefined)` is the string `undefined`. -/
def interp : Option Json → String
  | none => "undefined"
  | some j => jsToString j

end Json

/-- One hexadecimal digit, lower case, as emitted by `JSON.stringify` in a
`\u00XX` escape. -/
def hexDigit (n : Nat) : Char :=
  if n < 10 then Char.ofNat (48 + n) else Char.ofNat (87 + n)

/-- The escape `JSON.stringify` applies to a single character inside a quoted
string (ECMA-404 / ECMA-262 QuoteJSONString). -/
def jsonEscapeChar (c : Char) : String :=
  if c = '"' then "\\\""
  else if c = '\\' then "\\\\"
  else if c = '\x08' then "\\b"
  else if c = '\x0c' then "\\f"
  else if c = '\n' then "\\n"
  else if c = '\r' then "\\r"
  else if c = '\t' then "\\t"
  else if c.toNat < 32 then
    "\\u00" ++ String.mk [hexDigit (c.toNat / 16), hexDigit (c.toNat % 16)]
  else String.mk [c]

/-- `JSON.stringify` quoting of a string value. -/
def jsonQuote (s : String) : String :=
  "\"" ++ String.join (s.toList.map jsonEscapeChar) ++ "\""

mutual

/-- `JSON.stringify(v, null, 2)` at nesting indentation `indent`
(children are indented by two further spaces). -/
def jsonStringifyAux (indent : String) : Json → String
  | .null => "null"
  | .bool true => "true"
  | .bool false => "false"
  | .num n => toString n
  | .str s => jsonQuote s
  | .arr [] => "[]"
  | .arr (x :: xs) =>
      let ind := indent ++ "  "
      "[\n" ++ ind ++
        String.intercalate (",\n" ++ ind) (jsonStringifyList ind (x :: xs)) ++
        "\n" ++ indent ++ "]"
  | .obj [] => "\x7b\x7d"
  | .obj (f :: fs) =>
      let ind := indent ++ "  "
      "\x7b\n" ++ ind ++
        String.intercalate (",\n" ++ ind) (jsonStringifyFields ind (f :: fs)) ++
        "\n" ++ indent ++ "\x7d"

/-- Serialisations of the items of an array, each at indentation `ind`. -/
def jsonStringifyList (ind : String) : List Json → List String
  | [] => []
  | x :: xs => jsonStringifyAux ind x :: jsonStringifyList ind xs

/-- Serialisations of the members of an object, each at indentation `ind`. -/
def jsonStringifyFields (ind : String) : List (String × Json) → List String
  | [] => []
  | (k, v) :: fs => (jsonQuote k ++ ": " ++ jsonStringifyAux ind v) :: jsonStringifyFields ind fs

end

/-- `JSON.stringify(v, null, 2)`: pretty-printed JSON with 2-space
indentation, as every handler applies to `response.data`. -/
def jsonStringify (j : Json) : String := jsonStringifyAux "" j

/-- The three axios instances of `IonosMcpServer` (`dnsApiClient`,
`domainsApiClient`, `sslApiClient`). -/
inductive ApiClient where
  | dns : ApiClient
  | domains : ApiClient
  | ssl : ApiClient
deriving DecidableEq

/-- HTTP verb of an outbound call. -/
inductive HttpMethod where
  | get : HttpMethod
  | post : HttpMethod
  | patch : HttpMethod
  | delete : HttpMethod
deriving DecidableEq

/-- One outbound HTTP request as issued by a handler: which client, which
verb, the path handed to axios, and the request body when the verb takes
one. -/
structure HttpRequest where
  client : ApiClient
  method : HttpMethod
  path : String
  body : Option Json

/-- Failure of the outbound HTTP call as observed by the dispatcher's
`catch` block: an axios error (`axios.isAxiosError` true) carrying
`error.response?.data` and `error.message`, or any other thrown error. -/
inductive HttpFailure where
  | axios : Option Json → String → HttpFailure
  | other : String → HttpFailure

/-- The HTTP layer, as an oracle: a handler's single call either resolves
with `response.data` or rejects with a failure. -/
def Http : Type := HttpRequest → Except HttpFailure Json

/-- A value thrown inside the `CallToolRequestSchema` handler: the
`McpError` of the `default` branch (code and message) or a failure
propagated out of an HTTP call. -/
inductive Thrown where
  | mcp : Int → String → Thrown
  | httpFailure : HttpFailure → Thrown

/-- The MCP SDK's `ErrorCode.MethodNotFound`. -/
def methodNotFoundCode : Int := -32601

/-- One item of a tool response's `content` array. -/
structure ContentItem where
  type : String
  text : String

/-- The envelope a tool invocation returns: `content` plus the optional
`isError` flag (absent on the success path, `true` in the catch block). -/
structure ToolResponse where
  content : List ContentItem
  isError : Option Bool

/-! ### Handlers

Each handler mirrors one private method of `IonosMcpServer`: it builds the
single request the method issues, consults the HTTP oracle, and on success
wraps `JSON.stringify(response.data, null, 2)` in the envelope (its
`isError` field absent).  The returned list is the trace of requests the
handler issued.  Tool arguments are passed as the raw `Json` value the
dispatcher received: the TypeScript `as` casts check nothing, and field
access follows JS semantics via `Json.field` / `Json.interp`. -/

/-- Success envelope shared by every handler:
`return \x7b content: [\x7b type: "text", text: JSON.stringify(response.data, null, 2) \x7d] \x7d`. -/
def successResponse (data : Json) : ToolResponse :=
  { content := [{ type := "text", text := jsonStringify data }], isError := none }

/-- Result of one handler run: the outcome together with the trace of
outbound requests it issued. -/
def HandlerRun : Type := Except Thrown ToolResponse × List HttpRequest

/-- A handler whose body is a single `await client.<verb>(path, body?)`
followed by the success envelope: the request rejects by propagating the
HTTP failure, resolves into `successResponse`. -/
def singleCallHandler (req : HttpRequest) (http : Http) : HandlerRun :=
  (match http req with
    | .ok data => .ok (successResponse data)
    | .error e => .error (.httpFailure e), [req])

/-- `listDnsZones`: GET `/v1/zones` on the DNS client. -/
def listDnsZones (http : Http) : HandlerRun :=
  singleCallHandler { client := .dns, method := .get, path := "/v1/zones", body := none } http

/-- `getDnsZone`: GET `/v1/zones/$\x7bparams.zoneId\x7d` on the DNS client. -/
def getDnsZone (params : Json) (http : Http) : HandlerRun :=
  singleCallHandler
    { client := .dns, method := .get,
      path := "/v1/zones/" ++ Json.interp (params.field "zoneId"), body := none } http

/-- `updateDnsZone`: PATCH `/v1/zones/$\x7bparams.zoneId\x7d` with body
`\x7b records: params.records \x7d`.  A JS object literal whose field value is
`undefined` still carries the field; `undefined` inside a built body is
modelled as JSON `null` (no claim exercises an absent `records`). -/
def updateDnsZone (params : Json) (http : Http) : HandlerRun :=
  singleCallHandler
    { client := .dns, method := .patch,
      path := "/v1/zones/" ++ Json.interp (params.field "zoneId"),
      body := some (Json.obj [("records", (params.field "records").getD Json.null)]) } http

/-- `listDomains`: GET `/v1/domainitems` on the domains client. -/
def listDomains (http : Http) : HandlerRun :=
  singleCallHandler { client := .domains, method := .get, path := "/v1/domainitems", body := none } http

/-- `getDomainDetails`: GET `/v1/domainitems/$\x7bparams.domainId\x7d` on the
domains client. -/
def getDomainDetails (params : Json) (http : Http) : HandlerRun :=
  singleCallHandler
    { client := .domains, method := .get,
      path := "/v1/domainitems/" ++ Json.interp (params.field "domainId"), body := none } http

/-- `listCertificates`: GET `/v1/certificates` on the SSL client. -/
def listCertificates (http : Http) : HandlerRun :=
  singleCallHandler { client := .ssl, method := .get, path := "/v1/certificates", body := none } http

/-- `getCertificateDetails`: GET `/v1/certificates/$\x7bparams.certificateId\x7d`
on the SSL client. -/
def getCertificateDetails (params : Json) (http : Http) : HandlerRun :=
  singleCallHandler
    { client := .ssl, method := .get,
      path := "/v1/certificates/" ++ Json.interp (params.field "certificateId"), body := none } http

/-- `createCertificate`: POST `/v1/certificates` with body
`\x7b domainName: params.domainName, subjectAlternativeNames: params.subjectAlternativeNames || [] \x7d`.
The `||` keeps the given value when it is truthy and substitutes `[]`
otherwise (in particular when the field is absent). -/
def createCertificate (params : Json) (http : Http) : HandlerRun :=
  singleCallHandler
    { client := .ssl, method := .post, path := "/v1/certificates",
      body := some (Json.obj
        [("domainName", (params.field "domainName").getD Json.null),
         ("subjectAlternativeNames",
           match params.field "subjectAlternativeNames" with
           | some v => if v.truthy then v else Json.arr []
           | none => Json.arr [])]) } http

/-- `deleteCertificate`: DELETE `/v1/certificates/$\x7bparams.certificateId\x7d`
on the SSL client. -/
def deleteCertificate (params : Json) (http : Http) : HandlerRun :=
  singleCallHandler
    { client := .ssl, method := .delete,
      path := "/v1/certificates/" ++ Json.interp (params.field "certificateId"), body := none } http

/-! ### Dispatcher -/

/-- The `try` block of the `CallToolRequestSchema` handler: the `switch` on
`request.params.name` (a JS `switch` is a sequence of strict-equality tests
against the case labels), whose `default` branch throws
`new McpError(ErrorCode.MethodNotFound, "Unknown tool: " + name)`. -/
def callToolTry (name : String) (args : Json) (http : Http) : HandlerRun :=
  if name = "list_dns_zones" then listDnsZones http
  else if name = "get_dns_zone" then getDnsZone args http
  else if name = "update_dns_zone" then updateDnsZone args http
  else if name = "list_domains" then listDomains http
  else if name = "get_domain_details" then getDomainDetails args http
  else if name = "list_certificates" then listCertificates http
  else if name = "get_certificate_details" then getCertificateDetails args http
  else if name = "create_certificate" then createCertificate args http
  else if name = "delete_certificate" then deleteCertificate args http
  else (.error (.mcp methodNotFoundCode ("Unknown tool: " ++ name)), [])

/-- Text of the catch block's envelope:
`IONOS API error: $\x7berror.response?.data?.message || error.message\x7d`.
`responseData` is `error.response?.data` (`none` when there was no
response); the body's `message` field is preferred only when truthy,
otherwise `error.message` is interpolated. -/
def ionosErrorText (responseData : Option Json) (message : String) : String :=
  let bodyMessage := responseData.bind (Json.field · "message")
  "IONOS API error: " ++
    (if Json.truthyOpt bodyMessage then Json.interp bodyMessage else message)

/-- The complete `CallToolRequestSchema` handler: the `try` block wrapped in
`catch (error)`, which turns an axios failure (`axios.isAxiosError(error)`)
into an `isError: true` envelope and rethrows every other thrown value.
The catch block issues no request of its own, so the trace of the `try`
block is the trace of the whole invocation. -/
def callTool (name : String) (args : Json) (http : Http) : HandlerRun :=
  let run := callToolTry name args http
  (match run.1 with
    | .error (.httpFailure (.axios responseData message)) =>
        .ok { content := [{ type := "text", text := ionosErrorText responseData message }],
              isError := some true }
    | r => r,
   run.2)

/-! ### Tool catalog -/

/-- One entry of the `ListToolsRequestSchema` response: name, description and
the declared JSON-schema of the input (kept as the literal `Json` object the
source writes). -/
structure Tool where
  name : String
  description : String
  inputSchema : Json

/-- The complete static tool list returned by the `ListToolsRequestSchema`
handler, in source order. -/
def listToolsResult : List Tool :=
  [ { name := "list_dns_zones",
      description := "List all DNS zones",
      inputSchema := Json.obj
        [("type", .str "object"), ("properties", .obj []),
         ("additionalProperties", .bool false)] },
    { name := "get_dns_zone",
      description := "Get details of a specific DNS zone",
      inputSchema := Json.obj
        [("type", .str "object"),
         ("properties", .obj
           [("zoneId", .obj [("type", .str "string"), ("description", .str "ID of the DNS zone")])]),
         ("required", .arr [.str "zoneId"]),
         ("additionalProperties", .bool false)] },
    { name := "update_dns_zone",
      description := "Update a DNS zone with new records",
      inputSchema := Json.obj
        [("type", .str "object"),
         ("properties", .obj
           [("zoneId", .obj [("type", .str "string"), ("description", .str "ID of the DNS zone")]),
            ("records", .obj
              [("type", .str "array"),
               ("description", .str "Array of DNS records to update"),
               ("items", .obj
                 [("type", .str "object"),
                  ("properties", .obj
                    [("name", .obj [("type", .str "string")]),
                     ("type", .obj [("type", .str "string")]),
                     ("content", .obj [("type", .str "string")]),
                     ("ttl", .obj [("type", .str "number")]),
                     ("prio", .obj [("type", .str "number")]),
                     ("disabled", .obj [("type", .str "boolean")])]),
                  ("required", .arr [.str "name", .str "type", .str "content"])])])]),
         ("required", .arr [.str "zoneId", .str "records"]),
         ("additionalProperties", .bool false)] },
    { name := "list_domains",
      description := "List all domains",
      inputSchema := Json.obj
        [("type", .str "object"), ("properties", .obj []),
         ("additionalProperties", .bool false)] },
    { name := "get_domain_details",
      description := "Get details of a specific domain",
      inputSchema := Json.obj
        [("type", .str "object"),
         ("properties", .obj
           [("domainId", .obj [("type", .str "string"), ("description", .str "ID of the domain")])]),
         ("required", .arr [.str "domainId"]),
         ("additionalProperties", .bool false)] },
    { name := "list_certificates",
      description := "List all SSL certificates",
      inputSchema := Json.obj
        [("type", .str "object"), ("properties", .obj []),
         ("additionalProperties", .bool false)] },
    { name := "get_certificate_details",
      description := "Get details of a specific SSL certificate",
      inputSchema := Json.obj
        [("type", .str "object"),
         ("properties", .obj
           [("certificateId", .obj
             [("type", .str "string"), ("description", .str "ID of the SSL certificate")])]),
         ("required", .arr [.str "certificateId"]),
         ("additionalProperties", .bool false)] },
    { name := "create_certificate",
      description := "Create a new SSL certificate",
      inputSchema := Json.obj
        [("type", .str "object"),
         ("properties", .obj
           [("domainName", .obj
             [("type", .str "string"), ("description", .str "Domain name for the certificate")]),
            ("subjectAlternativeNames", .obj
              [("type", .str "array"),
               ("description", .str "Additional domain names for the certificate"),
               ("items", .obj [("type", .str "string")])])]),
         ("required", .arr [.str "domainName"]),
         ("additionalProperties", .bool false)] },
    { name := "delete_certificate",
      description := "Unassign an SSL certificate",
      inputSchema := Json.obj
        [("type", .str "object"),
         ("properties", .obj
           [("certificateId", .obj
             [("type", .str "string"), ("description", .str "ID of the SSL certificate")])]),
         ("required", .arr [.str "certificateId"]),
         ("additionalProperties", .bool false)] } ]

/-- Names of the catalog's descriptors, in order. -/
def catalogNames : List String := listToolsResult.map Tool.name

/-! ### Startup (`const API_KEY = process.env.IONOS_API_KEY; if (!API_KEY) throw ...`) -/

/-- Configuration of one axios instance created by the constructor: base URL
plus the two default headers. -/
structure ClientConfig where
  baseURL : String
  xApiKey : String
  accept : String

/-- Everything the constructor builds: the server identity and the three
API clients. -/
structure ServerInit where
  serverName : String
  serverVersion : String
  dnsApiClient : ClientConfig
  domainsApiClient : ClientConfig
  sslApiClient : ClientConfig

/-- Message of the startup error thrown when the key is missing. -/
def requiredEnvError : String := "IONOS_API_KEY environment variable is required"

/-- Module initialisation: reads `process.env.IONOS_API_KEY` (`none` when the
variable is unset) and throws before any construction when the value is
falsy (`undefined` or the empty string); otherwise the constructor builds
the server and the three clients. -/
def startup (ionosApiKey : Option String) : Except String ServerInit :=
  match ionosApiKey with
  | none => .error requiredEnvError
  | some key =>
      if key = "" then .error requiredEnvError
      else .ok
        { serverName := "ionos-mcp-server", serverVersion := "0.1.0",
          dnsApiClient :=
            { baseURL := "https://api.hosting.ionos.com/dns",
              xApiKey := key, accept := "application/json" },
          domainsApiClient :=
            { baseURL := "https://api.hosting.ionos.com/domains",
              xApiKey := key, accept := "application/json" },
          sslApiClient :=
            { baseURL := "https://api.hosting.ionos.com/ssl",
              xApiKey := key, accept := "application/json" } }

/-! ### Path-pattern predicates (for the path-construction claims) -/

/-- A path component that stays inside one path segment: it contains no
path separator and starts no query string. -/
def singleSegment (s : String) : Bool :=
  !(s.toList.contains '/' || s.toList.contains '?')

/-- Whether `path` matches a declared `base ++ \x7bid\x7d` route pattern: it
extends `base` by exactly one path segment. -/
def matchesIdPattern (base path : String) : Bool :=
  base.toList.isPrefixOf path.toList &&
    singleSegment (String.mk (path.toList.drop base.toList.length))

/-! ### Helper lemmas -/

/-- Every catalog name reaches a handler consisting of a single HTTP call. -/
theorem callToolTry_mem (name : String) (hn : name ∈ catalogNames) (args : Json) (http : Http) :
    ∃ req, callToolTry name args http = singleCallHandler req http := by
  simp only [catalogNames, listToolsResult, List.map_cons, List.map_nil, List.mem_cons,
    List.not_mem_nil, or_false] at hn
  rcases hn with h | h | h | h | h | h | h | h | h <;> subst h <;> exact ⟨_, rfl⟩

/-- A name outside the catalog falls through every `case` to the `default`
branch: a `MethodNotFound` `McpError` naming the tool, no request issued. -/
theorem callToolTry_not_mem (name : String) (hn : name ∉ catalogNames) (args : Json) (http : Http) :
    callToolTry name args http =
      (.error (.mcp methodNotFoundCode ("Unknown tool: " ++ name)), []) := by
  simp only [catalogNames, listToolsResult, List.map_cons, List.map_nil, List.mem_cons,
    List.not_mem_nil, or_false, not_or] at hn
  obtain ⟨h1, h2, h3, h4, h5, h6, h7, h8, h9⟩ := hn
  simp [callToolTry, h1, h2, h3, h4, h5, h6, h7, h8, h9]

/-- When the single HTTP call of a catalog tool rejects with an axios error,
the catch block returns the normalized `isError: true` envelope built from
`ionosErrorText`. -/
theorem callTool_axios (name : String) (hn : name ∈ catalogNames) (args : Json)
    (rd : Option Json) (g : String) (http : Http)
    (hh : ∀ r, http r = .error (.axios rd g)) :
    (callTool name args http).1 =
      .ok { content := [{ type := "text", text := ionosErrorText rd g }],
            isError := some true } := by
  obtain ⟨req, hr⟩ := callToolTry_mem name hn args http
  simp [callTool, hr, singleCallHandler, hh]

/-- A truthy string `message` field of the error body wins over the generic
axios message and is interpolated after the fixed prose. -/
theorem ionosErrorText_str_message (rd : Json) (m g : String)
    (hm : rd.field "message" = some (.str m)) (hne : m ≠ "") :
    ionosErrorText (some rd) g = "IONOS API error: " ++ m := by
  simp [ionosErrorText, hm, Json.truthyOpt, Json.truthy, Json.interp, Json.jsToString, hne]

/-- A falsy `message` field of the error body loses the `||` and the generic
axios message is interpolated instead. -/
theorem ionosErrorText_falsy (rd v : Json) (g : String)
    (hm : rd.field "message" = some v) (hf : v.truthy = false) :
    ionosErrorText (some rd) g = "IONOS API error: " ++ g := by
  simp [ionosErrorText, hm, Json.truthyOpt, hf]

/-! ### Claim theorems -/

/-- C1 (counterexample): the claim as stated is false — with a 404 whose
body is `\x7b message: "boom" \x7d`, the envelope's single text content is
`IONOS API error: boom`, not the `message` string `boom` unaltered. -/
theorem remote_failure_text_not_unaltered :
    (callTool "get_dns_zone" (Json.obj [("zoneId", Json.str "z1")])
        (fun _ => .error (.axios (some (Json.obj [("message", Json.str "boom")]))
                                 "Request failed with status code 404"))).1 =
      .ok { content := [{ type := "text", text := "IONOS API error: boom" }],
            isError := some true } ∧
    "IONOS API error: boom" ≠ "boom" :=
  ⟨rfl, by decide⟩

/-- C1 (amended): for every catalog tool whose HTTP call rejects with an
axios error whose response body carries a non-empty string `message`, the
dispatcher returns a normal (non-fault) result with `isError: true` and
exactly one text content item equal to `IONOS API error: ` followed by that
`message` string. -/
theorem remote_failure_translation_prefixed (name : String) (hn : name ∈ catalogNames)
    (args : Json) (rd : Json) (m g : String)
    (hm : rd.field "message" = some (.str m)) (hne : m ≠ "")
    (http : Http) (hh : ∀ r, http r = .error (.axios (some rd) g)) :
    (callTool name args http).1 =
      .ok { content := [{ type := "text", text := "IONOS API error: " ++ m }],
            isError := some true } := by
  rw [callTool_axios name hn args (some rd) g http hh,
    ionosErrorText_str_message rd m g hm hne]

/-- C1 (witness): the amended claim at `get_dns_zone` with body message
`invalid zone ID`. -/
theorem remote_failure_translation_prefixed_witness :
    (callTool "get_dns_zone" (Json.obj [("zoneId", Json.str "z1")])
        (fun _ => .error (.axios (some (Json.obj [("message", Json.str "invalid zone ID")]))
                                 "Request failed with status code 404"))).1 =
      .ok { content := [{ type := "text", text := "IONOS API error: " ++ "invalid zone ID" }],
            isError := some true } :=
  remote_failure_translation_prefixed "get_dns_zone" (by decide)
    (Json.obj [("zoneId", Json.str "z1")]) (Json.obj [("message", Json.str "invalid zone ID")])
    "invalid zone ID" "Request failed with status code 404" rfl (by decide)
    _ (fun _ => rfl)

/-- C2: the catalog's names are exactly the names the switch dispatches
(each appearing in exactly one descriptor): the name list has no duplicate,
every member occurs once, every non-member yields the method-not-found
outcome with an empty request trace, and no member can ever produce an
`McpError`-style fault. -/
theorem catalog_dispatch_agreement :
    catalogNames.Nodup ∧
    (∀ n, n ∈ catalogNames → catalogNames.count n = 1) ∧
    (∀ (name : String) (args : Json) (http : Http), name ∉ catalogNames →
       callTool name args http =
         (.error (.mcp methodNotFoundCode ("Unknown tool: " ++ name)), [])) ∧
    (∀ (name : String), name ∈ catalogNames →
       ∀ (args : Json) (http : Http) (code : Int) (msg : String),
         (callTool name args http).1 ≠ .error (.mcp code msg)) := by
  refine ⟨by decide, fun n hn => List.count_eq_one_of_mem (by decide) hn, ?_, ?_⟩
  · intro name args http hn
    have h := callToolTry_not_mem name hn args http
    simp [callTool, h]
  · intro name hn args http code msg
    obtain ⟨req, hr⟩ := callToolTry_mem name hn args http
    cases hcall : http req with
    | ok d => simp [callTool, hr, singleCallHandler, hcall]
    | error f =>
      cases f with
      | axios rd m => simp [callTool, hr, singleCallHandler, hcall]
      | other m => simp [callTool, hr, singleCallHandler, hcall]

/-- C2 (witness): a catalog member's multiplicity and a non-member's
method-not-found outcome, at concrete inputs. -/
theorem catalog_dispatch_agreement_witness :
    catalogNames.count "get_dns_zone" = 1 ∧
    callTool "bogus" Json.null (fun _ => .ok Json.null) =
      (.error (.mcp methodNotFoundCode ("Unknown tool: " ++ "bogus")), []) :=
  ⟨catalog_dispatch_agreement.2.1 "get_dns_zone" (by decide),
   catalog_dispatch_agreement.2.2.1 "bogus" Json.null (fun _ => .ok Json.null) (by decide)⟩

/-- C3: invoking a name absent from the catalog raises the protocol-level
`McpError` with `ErrorCode.MethodNotFound` carrying the offending name; the
catch block does not absorb it, and no `isError: true` envelope (indeed no
envelope at all) is returned. -/
theorem unknown_tool_protocol_fault (name : String) (hn : name ∉ catalogNames)
    (args : Json) (http : Http) :
    callTool name args http =
      (.error (.mcp methodNotFoundCode ("Unknown tool: " ++ name)), []) ∧
    ∀ envlp : ToolResponse, (callTool name args http).1 ≠ .ok envlp := by
  have h := callToolTry_not_mem name hn args http
  constructor
  · simp [callTool, h]
  · intro envlp
    simp [callTool, h]

/-- C3 (witness): the protocol fault at the concrete name
`nonexistent_tool`. -/
theorem unknown_tool_protocol_fault_witness :
    callTool "nonexistent_tool" Json.null (fun _ => .ok Json.null) =
      (.error (.mcp methodNotFoundCode ("Unknown tool: " ++ "nonexistent_tool")), []) :=
  (unknown_tool_protocol_fault "nonexistent_tool" (by decide) Json.null
    (fun _ => .ok Json.null)).1

/-- C4: an exception raised inside a handler that is not an axios error is
not converted into an envelope: the dispatcher rethrows the very same value
as a fault for that request. -/
theorem non_axios_error_rethrown (name : String) (hn : name ∈ catalogNames) (args : Json)
    (msg : String) (http : Http) (hh : ∀ r, http r = .error (.other msg)) :
    (callTool name args http).1 = .error (.httpFailure (.other msg)) := by
  obtain ⟨req, hr⟩ := callToolTry_mem name hn args http
  simp [callTool, hr, singleCallHandler, hh]

/-- C4 (witness): a non-axios `TypeError` thrown under `get_dns_zone`
propagates unchanged. -/
theorem non_axios_error_rethrown_witness :
    (callTool "get_dns_zone" Json.null
        (fun _ => .error (.other "TypeError: x is not a function"))).1 =
      .error (.httpFailure (.other "TypeError: x is not a function")) :=
  non_axios_error_rethrown "get_dns_zone" (by decide) Json.null
    "TypeError: x is not a function" _ (fun _ => rfl)

/-- C5: `create_certificate` with `domainName` given and
`subjectAlternativeNames` absent issues exactly one POST to
`/v1/certificates` whose body is
`\x7b domainName: <given>, subjectAlternativeNames: [] \x7d`. -/
theorem create_certificate_default_san (args : Json) (d : String) (http : Http)
    (hd : args.field "domainName" = some (.str d))
    (hs : args.field "subjectAlternativeNames" = none) :
    (callTool "create_certificate" args http).2 =
      [{ client := .ssl, method := .post, path := "/v1/certificates",
         body := some (Json.obj [("domainName", Json.str d),
                                 ("subjectAlternativeNames", Json.arr [])]) }] := by
  simp [callTool, callToolTry, createCertificate, singleCallHandler, hd, hs]

/-- C5 (witness): the default substitution at
`\x7b domainName: "example.com" \x7d`. -/
theorem create_certificate_default_san_witness :
    (callTool "create_certificate" (Json.obj [("domainName", Json.str "example.com")])
        (fun _ => .ok Json.null)).2 =
      [{ client := .ssl, method := .post, path := "/v1/certificates",
         body := some (Json.obj [("domainName", Json.str "example.com"),
                                 ("subjectAlternativeNames", Json.arr [])]) }] :=
  create_certificate_default_san (Json.obj [("domainName", Json.str "example.com")])
    "example.com" (fun _ => .ok Json.null) rfl rfl

/-- C6: a successful `get_dns_zone` invocation returns the envelope with
`isError` absent whose single text item is exactly
`JSON.stringify(response.data, null, 2)` of the remote body, and issues the
one GET it declares. -/
theorem get_dns_zone_passthrough (zoneId : String) (data : Json) (http : Http)
    (h : http { client := .dns, method := .get, path := "/v1/zones/" ++ zoneId, body := none } =
           .ok data) :
    callTool "get_dns_zone" (Json.obj [("zoneId", Json.str zoneId)]) http =
      (.ok { content := [{ type := "text", text := jsonStringify data }], isError := none },
       [{ client := .dns, method := .get, path := "/v1/zones/" ++ zoneId, body := none }]) := by
  simp [callTool, callToolTry, getDnsZone, singleCallHandler, successResponse,
    Json.field, Json.interp, Json.jsToString, List.lookup, h]

/-- C6 (witness): the body `\x7b"id":"z1","name":"example.com"\x7d` passes
through as its 2-space pretty-printed text. -/
theorem get_dns_zone_passthrough_witness :
    callTool "get_dns_zone" (Json.obj [("zoneId", Json.str "z1")])
        (fun _ => .ok (Json.obj [("id", Json.str "z1"), ("name", Json.str "example.com")])) =
      (.ok { content := [{ type := "text",
                           text := jsonStringify
                             (Json.obj [("id", Json.str "z1"),
                                        ("name", Json.str "example.com")]) }],
             isError := none },
       [{ client := .dns, method := .get, path := "/v1/zones/" ++ "z1", body := none }]) ∧
    jsonStringify (Json.obj [("id", Json.str "z1"), ("name", Json.str "example.com")]) =
      "\x7b\n  \"id\": \"z1\",\n  \"name\": \"example.com\"\n\x7d" :=
  ⟨get_dns_zone_passthrough "z1"
      (Json.obj [("id", Json.str "z1"), ("name", Json.str "example.com")]) _ rfl,
   rfl⟩

/-- C7: `update_dns_zone` issues exactly one outbound request — a PATCH to
`/v1/zones/<zoneId>` on the DNS client — whose body is exactly
`\x7b records: <given records> \x7d`; no other argument field reaches the body.
The invocation is a pure function of its arguments and the HTTP oracle, so
it mutates no shared state. -/
theorem update_dns_zone_single_patch (args : Json) (zoneId : String) (records : Json)
    (http : Http)
    (hz : args.field "zoneId" = some (.str zoneId))
    (hr : args.field "records" = some records) :
    (callTool "update_dns_zone" args http).2 =
      [{ client := .dns, method := .patch, path := "/v1/zones/" ++ zoneId,
         body := some (Json.obj [("records", records)]) }] := by
  simp [callTool, callToolTry, updateDnsZone, singleCallHandler, hz, hr,
    Json.interp, Json.jsToString]

/-- C7 (witness): an argument object carrying an extra field still produces
the one PATCH whose body holds only `records`. -/
theorem update_dns_zone_single_patch_witness :
    (callTool "update_dns_zone"
        (Json.obj [("zoneId", Json.str "z1"),
                   ("records", Json.arr [Json.obj [("name", Json.str "a"),
                                                   ("type", Json.str "A"),
                                                   ("content", Json.str "1.2.3.4")]]),
                   ("extra", Json.str "ignored")])
        (fun _ => .ok Json.null)).2 =
      [{ client := .dns, method := .patch, path := "/v1/zones/" ++ "z1",
         body := some (Json.obj [("records",
           Json.arr [Json.obj [("name", Json.str "a"), ("type", Json.str "A"),
                               ("content", Json.str "1.2.3.4")]])]) }] :=
  update_dns_zone_single_patch
    (Json.obj [("zoneId", Json.str "z1"),
               ("records", Json.arr [Json.obj [("name", Json.str "a"),
                                               ("type", Json.str "A"),
                                               ("content", Json.str "1.2.3.4")]]),
               ("extra", Json.str "ignored")])
    "z1"
    (Json.arr [Json.obj [("name", Json.str "a"), ("type", Json.str "A"),
                         ("content", Json.str "1.2.3.4")]])
    (fun _ => .ok Json.null) rfl rfl

/-- C8: a falsy `IONOS_API_KEY` (unset, or set to the empty string) makes
startup fail with the required-variable error before anything is built: no
`ServerInit` (server identity, catalog host, HTTP clients) is ever
produced. -/
theorem startup_missing_key_fatal (e : Option String) (h : e = none ∨ e = some "") :
    startup e = .error requiredEnvError ∧ ∀ s : ServerInit, startup e ≠ .ok s := by
  rcases h with h | h <;> subst h
  · exact ⟨rfl, by intro s; simp [startup]⟩
  · exact ⟨rfl, by intro s; simp [startup]⟩

/-- C8 (witness): startup with the variable unset fails with the
required-variable error. -/
theorem startup_missing_key_fatal_witness :
    startup none = .error requiredEnvError :=
  (startup_missing_key_fatal none (Or.inl rfl)).1

/-- C9: when the axios error body's `message` field is present but falsy
(for example the empty string), the `||` rejects it and the envelope's text
is `IONOS API error: ` followed by the generic axios message. -/
theorem falsy_message_fallback (name : String) (hn : name ∈ catalogNames) (args : Json)
    (rd v : Json) (g : String)
    (hm : rd.field "message" = some v) (hf : v.truthy = false)
    (http : Http) (hh : ∀ r, http r = .error (.axios (some rd) g)) :
    (callTool name args http).1 =
      .ok { content := [{ type := "text", text := "IONOS API error: " ++ g }],
            isError := some true } := by
  rw [callTool_axios name hn args (some rd) g http hh, ionosErrorText_falsy rd v g hm hf]

/-- C9 (witness): a body with `message: ""` falls back to the generic axios
message `Request failed with status code 500`. -/
theorem falsy_message_fallback_witness :
    (callTool "get_dns_zone" (Json.obj [("zoneId", Json.str "z1")])
        (fun _ => .error (.axios (some (Json.obj [("message", Json.str "")]))
                                 "Request failed with status code 500"))).1 =
      .ok { content := [{ type := "text",
                          text := "IONOS API error: " ++
                            "Request failed with status code 500" }],
            isError := some true } :=
  falsy_message_fallback "get_dns_zone" (by decide) (Json.obj [("zoneId", Json.str "z1")])
    (Json.obj [("message", Json.str "")]) (Json.str "") "Request failed with status code 500"
    rfl rfl _ (fun _ => rfl)

/-- C10: every id-parameterized handler splices the raw id into the path by
plain concatenation — `get_dns_zone` requests exactly `/v1/zones/ ++ zoneId`,
and likewise `get_domain_details`, `get_certificate_details` and
`delete_certificate` — so an id such as `z1/../config` produces a request
whose path leaves the declared `/v1/zones/\x7bzoneId\x7d` single-segment
pattern. -/
theorem id_paths_literal_concatenation :
    (∀ (zoneId : String) (http : Http),
       (callTool "get_dns_zone" (Json.obj [("zoneId", Json.str zoneId)]) http).2 =
         [{ client := .dns, method := .get, path := "/v1/zones/" ++ zoneId, body := none }]) ∧
    (∀ (domainId : String) (http : Http),
       (callTool "get_domain_details" (Json.obj [("domainId", Json.str domainId)]) http).2 =
         [{ client := .domains, method := .get, path := "/v1/domainitems/" ++ domainId,
            body := none }]) ∧
    (∀ (certificateId : String) (http : Http),
       (callTool "get_certificate_details"
           (Json.obj [("certificateId", Json.str certificateId)]) http).2 =
         [{ client := .ssl, method := .get, path := "/v1/certificates/" ++ certificateId,
            body := none }]) ∧
    (∀ (certificateId : String) (http : Http),
       (callTool "delete_certificate"
           (Json.obj [("certificateId", Json.str certificateId)]) http).2 =
         [{ client := .ssl, method := .delete, path := "/v1/certificates/" ++ certificateId,
            body := none }]) ∧
    matchesIdPattern "/v1/zones/" ("/v1/zones/" ++ "z1/../config") = false := by
  refine ⟨?_, ?_, ?_, ?_, by decide⟩
  · intro zoneId http
    simp [callTool, callToolTry, getDnsZone, singleCallHandler,
      Json.field, Json.interp, Json.jsToString, List.lookup]
  · intro domainId http
    simp [callTool, callToolTry, getDomainDetails, singleCallHandler,
      Json.field, Json.interp, Json.jsToString, List.lookup]
  · intro certificateId http
    simp [callTool, callToolTry, getCertificateDetails, singleCallHandler,
      Json.field, Json.interp, Json.jsToString, List.lookup]
  · intro certificateId http
    simp [callTool, callToolTry, deleteCertificate, singleCallHandler,
      Json.field, Json.interp, Json.jsToString, List.lookup]
